import Mathlib

/-!
Verification of the agentic tool-orchestration loop of the ai-news-bot
repository (src/src/news_generator.py), as a shallow embedding in Lean 4.

The generation provider (Anthropic `client.messages.create`) is modelled as
an oracle `provider : Nat → Response` giving the reply to the n-th provider
call of one run, and the search tool (`WebSearchTool.search_news`) as a pure
oracle `search : String → Nat → List SearchResult`.  Everything else —
the loop state, budgets, transcript construction, result formatting, prompt
building and the retry wrapper — is translated directly from the source.
-/

/-- A search result as consumed by the loop: `result['title']`,
`result['snippet']`, `result['url']` (empty string models a falsy URL). -/
structure SearchResult where
  title : String
  snippet : String
  url : String
  deriving DecidableEq, Repr

/-- A content block of a provider response: `block.type` is `"text"`,
`"tool_use"` (with `block.id`, `block.name`, and the `query` /
`max_results` entries of `block.input`, each possibly absent), or some
other type the loop ignores. -/
inductive Block where
  | text (s : String)
  | toolUse (id : String) (name : String) (query : Option String) (maxResults : Option Nat)
  | otherBlock
  deriving DecidableEq, Repr

/-- One `tool_result` dict appended by the loop. -/
structure ToolResult where
  tool_use_id : String
  content : String
  deriving DecidableEq, Repr

/-- The content payload of a transcript message: the initial prompt is a
plain string, an assistant turn carries the response blocks, and the
tool-results turn carries a list of `tool_result` dicts. -/
inductive Content where
  | str (s : String)
  | blocks (bs : List Block)
  | results (rs : List ToolResult)
  deriving DecidableEq, Repr

/-- One message of the `messages` transcript. -/
structure Message where
  role : String
  content : Content
  deriving DecidableEq, Repr

/-- One reply of the generation provider: `message.stop_reason` and
`message.content`. -/
structure Response where
  stop_reason : String
  content : List Block
  deriving DecidableEq, Repr

/-- `max_iterations = 8` in `generate_news_digest`. -/
def max_iterations : Nat := 8

/-- `max_searches = 6` in `generate_news_digest`. -/
def max_searches : Nat := 6

/-- The synthesized tool result used once the search budget is exceeded. -/
def budget_message : String :=
  "Maximum number of searches reached. Please create the digest based on the information gathered so far."

/-- The fixed steering user turn appended when `search_count >= max_searches`. -/
def steering_message : String :=
  "You have gathered enough information. Please now create a comprehensive news digest based on all the search results you\x27ve collected."

/-- The instruction appended to the prompt when web search is enabled. -/
def web_search_instruction : String :=
  "\n\nIMPORTANT: Use the web_search tool to find the most recent AI news from 2025. You can search 3-5 times with different queries to gather diverse news. After gathering news, create a comprehensive digest based on what you found."

/-- The `"No results found ..."` sentinel for an empty search result list. -/
def no_results_text (query : String) : String :=
  "No results found for \x27" ++ query ++ "\x27. Try a different query or proceed with the information you have."

/-- First `text` block of a content list: the
`for block in message.content: if block.type == "text": ...; break` scan. -/
def firstText : List Block → Option String
  | [] => none
  | Block.text s :: _ => some s
  | _ :: rest => firstText rest

/-- The `result_text` accumulation loop `for i, result in
enumerate(search_results, 1)`, starting at ordinal `i`. -/
def formatBody : Nat → List SearchResult → String
  | _, [] => ""
  | i, r :: rest =>
      (toString i ++ ". " ++ r.title ++ "\n")
        ++ ("   " ++ r.snippet ++ "\n")
        ++ (if r.url ≠ "" then "   URL: " ++ r.url ++ "\n" else "")
        ++ "\n"
        ++ formatBody (i + 1) rest

/-- Rendering of one search call\x27s results: header plus entries when the
list is non-empty, the no-results sentinel otherwise. -/
def formatSearchResults (query : String) (results : List SearchResult) : String :=
  if results.isEmpty then no_results_text query
  else "Search results for \x27" ++ query ++ "\x27:\n\n" ++ formatBody 1 results

/-- Outcome of processing the blocks of one `tool_use` response: the updated
`search_count`, the number of searches actually dispatched to
`search_tool.search_news`, and the accumulated `tool_results` list. -/
structure ProcOut where
  search_count : Nat
  executed : Nat
  results : List ToolResult
  deriving DecidableEq, Repr

/-- The `for block in message.content` tool-execution loop.  A `tool_use`
block named `web_search` (with the tool enabled) increments `search_count`;
if the budget is exceeded the synthesized `budget_message` is used,
otherwise the search oracle is invoked.  Any other block produces nothing. -/
def processBlocks (enable : Bool) (search : String → Nat → List SearchResult) :
    Nat → List Block → ProcOut
  | sc, [] => ⟨sc, 0, []⟩
  | sc, Block.toolUse id name q mr :: rest =>
      if name = "web_search" ∧ enable then
        let sc' := sc + 1
        if max_searches < sc' then
          let p := processBlocks enable search sc' rest
          ⟨p.search_count, p.executed, ⟨id, budget_message⟩ :: p.results⟩
        else
          let query := q.getD "AI news 2025"
          let n := mr.getD 10
          let txt := formatSearchResults query (search query n)
          let p := processBlocks enable search sc' rest
          ⟨p.search_count, p.executed + 1, ⟨id, txt⟩ :: p.results⟩
      else
        processBlocks enable search sc rest
  | sc, _ :: rest => processBlocks enable search sc rest

/-- The loop state of one `generate_news_digest` call: the transcript, the
search budget counter, the captured final text, the most recent provider
reply, and two observation counters (provider calls made, searches actually
dispatched to the executor). -/
structure DriverState where
  messages : List Message
  search_count : Nat
  response_text : Option String
  last_message : Option Response
  provider_calls : Nat
  executed_searches : Nat
  deriving DecidableEq, Repr

/-- Initial state: transcript seeded with the single user prompt. -/
def initState (prompt : String) : DriverState :=
  ⟨[⟨"user", Content.str prompt⟩], 0, none, none, 0, 0⟩

/-- One iteration of the agentic loop.  Returns the new state and whether
the `for` loop continues (`false` models `break` or loop exit). -/
def stepDriver (enable : Bool) (provider : Nat → Response)
    (search : String → Nat → List SearchResult) (st : DriverState) :
    DriverState × Bool :=
  let msg := provider st.provider_calls
  let st1 : DriverState :=
    { st with provider_calls := st.provider_calls + 1, last_message := some msg }
  if msg.stop_reason = "end_turn" then
    ({ st1 with response_text := firstText msg.content }, false)
  else if msg.stop_reason = "tool_use" then
    let st2 : DriverState :=
      { st1 with messages := st1.messages ++ [⟨"assistant", Content.blocks msg.content⟩] }
    let p := processBlocks enable search st2.search_count msg.content
    let st3 : DriverState :=
      { st2 with
          search_count := p.search_count
          executed_searches := st2.executed_searches + p.executed }
    if p.results.isEmpty then (st3, false)
    else
      let st4 : DriverState :=
        { st3 with messages := st3.messages ++ [⟨"user", Content.results p.results⟩] }
      let st5 : DriverState :=
        if max_searches ≤ p.search_count then
          { st4 with messages := st4.messages ++ [⟨"user", Content.str steering_message⟩] }
        else st4
      (st5, true)
  else
    (st1, false)

/-- The `for iteration in range(max_iterations)` loop, by remaining fuel. -/
def runDriver (enable : Bool) (provider : Nat → Response)
    (search : String → Nat → List SearchResult) : Nat → DriverState → DriverState
  | 0, st => st
  | n + 1, st =>
      let r := stepDriver enable provider search st
      if r.2 then runDriver enable provider search n r.1 else r.1

/-- `"\n".join(f"- {topic}" for topic in topics)`. -/
def topicsFormatted (topics : List String) : String :=
  String.intercalate "\n" (topics.map (fun t => "- " ++ t))

/-- `prompt_template.format(topics=topics_formatted)`, modelled as literal
substitution of the placeholder. -/
def applyTemplate (template : String) (topics : List String) : String :=
  template.replace "{topics}" (topicsFormatted topics)

/-- `str.lower()` on the language code, as a character map. -/
def lowerStr (s : String) : String := ⟨s.data.map Char.toLower⟩

/-- `str.upper()` on the language code, as a character map. -/
def upperStr (s : String) : String := ⟨s.data.map Char.toUpper⟩

/-- The `language_names` dictionary. -/
def language_names : List (String × String) :=
  [("zh", "Chinese (中文)"),
   ("es", "Spanish (Español)"),
   ("fr", "French (Français)"),
   ("ja", "Japanese (日本語)"),
   ("de", "German (Deutsch)"),
   ("ko", "Korean (한국어)"),
   ("pt", "Portuguese (Português)"),
   ("ru", "Russian (Русский)"),
   ("ar", "Arabic (العربية)"),
   ("hi", "Hindi (हिन्दी)"),
   ("it", "Italian (Italiano)"),
   ("nl", "Dutch (Nederlands)")]

/-- `language_names.get(language.lower(), language.upper())`. -/
def languageName (language : String) : String :=
  match language_names.lookup (lowerStr language) with
  | some n => n
  | none => upperStr language

/-- Prompt construction of `generate_news_digest`: the formatted template,
plus the web-search instruction when enabled, plus the language directive
when the language is non-empty and not `en` (case-insensitively). -/
def buildPrompt (enable : Bool) (base : String) (language : String) : String :=
  let p1 := if enable then base ++ web_search_instruction else base
  if language ≠ "" ∧ lowerStr language ≠ "en" then
    p1 ++ "\n\nIMPORTANT: Please respond entirely in " ++ languageName language ++ "."
  else p1

/-- `generate_news_digest`: build the prompt, run the agentic loop, then
extract the final text — from `response_text` if the loop captured it,
otherwise from the most recent provider reply — and fail with the
`"No text response received from Claude"` exception if none exists. -/
def generate_news_digest (enable : Bool) (provider : Nat → Response)
    (search : String → Nat → List SearchResult)
    (topics : List String) (prompt_template : String) (language : String) :
    Except String String :=
  let prompt := buildPrompt enable (applyTemplate prompt_template topics) language
  let st := runDriver enable provider search max_iterations (initState prompt)
  let rt : Option String :=
    match st.response_text with
    | some t => some t
    | none =>
        match st.last_message with
        | some m => firstText m.content
        | none => none
  match rt with
  | some t => Except.ok t
  | none => Except.error "No text response received from Claude"

/-- The retry loop of `generate_with_retry`: `fuel` remaining attempts,
`i` the index of the next attempt, `last` the last captured exception
(`none` is the initial `last_exception = None` placeholder; raising it is a
`TypeError` in Python, modelled as `Except.error none`). -/
def retryAux (attempts : Nat → Except String String) :
    Nat → Nat → Option String → Except (Option String) String
  | 0, _, last => Except.error last
  | fuel + 1, i, last =>
      match attempts i with
      | Except.ok v => Except.ok v
      | Except.error e =>
          let _ := last
          retryAux attempts fuel (i + 1) (some e)

/-- `generate_with_retry`: up to `max_retries` attempts (an `int`, so a
non-positive value gives an empty `range`), every exception retryable,
re-raising the last captured exception when all attempts fail. -/
def generate_with_retry (attempts : Nat → Except String String)
    (max_retries : Int) : Except (Option String) String :=
  retryAux attempts max_retries.toNat 0 none

/-! ### Specification-side definitions -/

/-- The call identifiers of the `tool_use` blocks of a content list. -/
def toolUseIds : List Block → List String
  | [] => []
  | Block.toolUse id _ _ _ :: rest => id :: toolUseIds rest
  | _ :: rest => toolUseIds rest

/-- A tool-results turn is well matched against the immediately preceding
message when that message is an assistant turn of blocks and each result
identifier occurs exactly once among its `tool_use` block ids. -/
def resultsMatch (prev : Message) (rs : List ToolResult) : Bool :=
  match prev.content with
  | Content.blocks bs =>
      prev.role == "assistant" && rs.all (fun r => (toolUseIds bs).count r.tool_use_id == 1)
  | _ => false

/-- Scan of a transcript tail, `prev` being the message just before it. -/
def checkFrom : Message → List Message → Bool
  | _, [] => true
  | prev, m :: rest =>
      (match m.content with
       | Content.results rs => resultsMatch prev rs
       | _ => true) && checkFrom m rest

/-- Transcript well-formedness: no tool-results turn opens the transcript,
and every tool-results turn answers the `tool_use` blocks of the
immediately preceding assistant turn, each identifier exactly once. -/
def checkTranscript : List Message → Bool
  | [] => true
  | m :: rest =>
      (match m.content with
       | Content.results _ => false
       | _ => true) && checkFrom m rest

/-- Rendering of one search result as the spec words it: 1-based ordinal
with the title, the snippet line, and a URL line exactly when the URL is
non-empty. -/
def specEntry (i : Nat) (r : SearchResult) : String :=
  (toString i ++ ". " ++ r.title ++ "\n")
    ++ ("   " ++ r.snippet ++ "\n")
    ++ (if r.url ≠ "" then "   URL: " ++ r.url ++ "\n" else "")
    ++ "\n"

/-- Concatenation of a list of rendered entries, in order. -/
def concatAll : List String → String
  | [] => ""
  | s :: rest => s ++ concatAll rest

/-- The shape `English (NativeScript)` with both parts non-empty — the
formal proxy for "names the language in both its English name and its
native script", the uniform shape of every `language_names` entry. -/
def NamesEnglishAndNative (s : String) : Prop :=
  ∃ e n : String, e ≠ "" ∧ n ≠ "" ∧ s = e ++ " (" ++ n ++ ")"

/-! ### Concrete fixtures for witness evaluation -/

/-- A final provider reply holding one text block. -/
def respEnd : Response := ⟨"end_turn", [Block.text "digest"]⟩

/-- A tool-requesting provider reply with one `web_search` call. -/
def respTool : Response := ⟨"tool_use", [Block.toolUse "id1" "web_search" (some "q") (some 2)]⟩

/-- A reply with an unrecognized stop reason but a text block. -/
def respOther : Response := ⟨"stop_sequence", [Block.text "fallback"]⟩

/-- A reply with an unrecognized stop reason and no text block. -/
def respOtherNoText : Response := ⟨"stop_sequence", [Block.otherBlock]⟩

/-- Provider that always finishes immediately. -/
def provEnd : Nat → Response := fun _ => respEnd

/-- Provider that always requests a tool. -/
def provTool : Nat → Response := fun _ => respTool

/-- Provider that always stops with an unrecognized reason and a text block. -/
def provOther : Nat → Response := fun _ => respOther

/-- Provider that always stops with an unrecognized reason and no text. -/
def provOtherNoText : Nat → Response := fun _ => respOtherNoText

/-- Provider that requests a tool once, then finishes. -/
def provToolThenEnd : Nat → Response
  | 0 => respTool
  | _ => respEnd

/-- Search oracle returning no results. -/
def searchNone : String → Nat → List SearchResult := fun _ _ => []

/-- A loop state whose search budget is already at the maximum. -/
def stWitness : DriverState := ⟨[⟨"user", Content.str "p"⟩], 6, none, none, 0, 6⟩

/-- A generation that fails on the first two attempts, then succeeds. -/
def attemptsFlaky : Nat → Except String String :=
  fun n => if n < 2 then Except.error "boom" else Except.ok "ok"

/-- A generation that fails on every attempt. -/
def attemptsFail : Nat → Except String String :=
  fun n => Except.error ("e" ++ toString n)

/-- A search result with a URL. -/
def sr1 : SearchResult := ⟨"T1", "S1", "http://u1"⟩

/-- A search result without a URL. -/
def sr2 : SearchResult := ⟨"T2", "S2", ""⟩

/-! ### Lemmas about the loop -/

theorem stepDriver_fst_provider_calls (enable : Bool) (provider : Nat → Response)
    (search : String → Nat → List SearchResult) (st : DriverState) :
    (stepDriver enable provider search st).1.provider_calls = st.provider_calls + 1 := by
  unfold stepDriver
  dsimp only
  repeat' split
  all_goals rfl

theorem runDriver_provider_calls (enable : Bool) (provider : Nat → Response)
    (search : String → Nat → List SearchResult) :
    ∀ (n : Nat) (st : DriverState),
      (runDriver enable provider search n st).provider_calls ≤ st.provider_calls + n := by
  intro n
  induction n with
  | zero => intro st; simp [runDriver]
  | succ k ih =>
      intro st
      unfold runDriver
      dsimp only
      split
      · have h1 := ih (stepDriver enable provider search st).1
        have h2 := stepDriver_fst_provider_calls enable provider search st
        omega
      · have h2 := stepDriver_fst_provider_calls enable provider search st
        omega

theorem processBlocks_search_count (enable : Bool)
    (search : String → Nat → List SearchResult) :
    ∀ (bs : List Block) (sc : Nat),
      sc ≤ (processBlocks enable search sc bs).search_count ∧
      (processBlocks enable search sc bs).executed + min sc max_searches =
        min (processBlocks enable search sc bs).search_count max_searches := by
  intro bs
  induction bs with
  | nil => intro sc; simp [processBlocks]
  | cons b rest ih =>
      intro sc
      cases b with
      | text s => simpa [processBlocks] using ih sc
      | otherBlock => simpa [processBlocks] using ih sc
      | toolUse id name q mr =>
          by_cases h : name = "web_search" ∧ enable = true
          · have hmax : max_searches = 6 := rfl
            by_cases h6 : max_searches < sc + 1
            · have := ih (sc + 1)
              simp only [processBlocks, if_pos h, if_pos h6]
              omega
            · have := ih (sc + 1)
              simp only [processBlocks, if_pos h, if_neg h6]
              omega
          · simpa [processBlocks, if_neg h] using ih sc

theorem stepDriver_executed (enable : Bool) (provider : Nat → Response)
    (search : String → Nat → List SearchResult) (st : DriverState)
    (h : st.executed_searches = min st.search_count max_searches) :
    (stepDriver enable provider search st).1.executed_searches =
      min (stepDriver enable provider search st).1.search_count max_searches := by
  have hp := processBlocks_search_count enable search
    (provider st.provider_calls).content st.search_count
  unfold stepDriver
  dsimp only
  repeat' split
  all_goals dsimp only
  all_goals omega

theorem runDriver_executed (enable : Bool) (provider : Nat → Response)
    (search : String → Nat → List SearchResult) :
    ∀ (n : Nat) (st : DriverState),
      st.executed_searches = min st.search_count max_searches →
      (runDriver enable provider search n st).executed_searches =
        min (runDriver enable provider search n st).search_count max_searches := by
  intro n
  induction n with
  | zero => intro st h; simpa [runDriver] using h
  | succ k ih =>
      intro st h
      unfold runDriver
      dsimp only
      split
      · exact ih _ (stepDriver_executed enable provider search st h)
      · exact stepDriver_executed enable provider search st h

theorem processBlocks_executed_zero (enable : Bool)
    (search : String → Nat → List SearchResult) (bs : List Block) (sc : Nat)
    (h : max_searches ≤ sc) :
    (processBlocks enable search sc bs).executed = 0 := by
  have hp := processBlocks_search_count enable search bs sc
  omega

theorem processBlocks_budget_result (search : String → Nat → List SearchResult)
    (id : String) (q : Option String) (mr : Option Nat) (bs : List Block) (sc : Nat)
    (h : max_searches ≤ sc) :
    (processBlocks true search sc (Block.toolUse id "web_search" q mr :: bs)).results =
      ⟨id, budget_message⟩ :: (processBlocks true search (sc + 1) bs).results := by
  have h6 : max_searches < sc + 1 := by omega
  simp [processBlocks, h6]

theorem stepDriver_steering (enable : Bool) (provider : Nat → Response)
    (search : String → Nat → List SearchResult) (st : DriverState)
    (h1 : (provider st.provider_calls).stop_reason = "tool_use")
    (h2 : (processBlocks enable search st.search_count
            (provider st.provider_calls).content).results ≠ [])
    (h3 : max_searches ≤ (processBlocks enable search st.search_count
            (provider st.provider_calls).content).search_count) :
    (stepDriver enable provider search st).1.messages =
      st.messages ++
        [⟨"assistant", Content.blocks (provider st.provider_calls).content⟩,
         ⟨"user", Content.results (processBlocks enable search st.search_count
            (provider st.provider_calls).content).results⟩,
         ⟨"user", Content.str steering_message⟩] ∧
    (stepDriver enable provider search st).2 = true := by
  have hne : ((processBlocks enable search st.search_count
      (provider st.provider_calls).content).results.isEmpty) = false := by
    simpa [List.isEmpty_iff] using h2
  simp [stepDriver, h1, hne, h3, List.append_assoc]

theorem checkFrom_append (ys : List Message) :
    ∀ (xs : List Message) (prev : Message),
      checkFrom prev (xs ++ ys) =
        (checkFrom prev xs && checkFrom (xs.getLastD prev) ys) := by
  intro xs
  induction xs with
  | nil => intro prev; simp [checkFrom]
  | cons x xs ih =>
      intro prev
      simp only [List.cons_append, checkFrom, List.append_eq, ih x, List.getLastD_cons,
        Bool.and_assoc]

theorem processBlocks_results_mem (enable : Bool)
    (search : String → Nat → List SearchResult) :
    ∀ (bs : List Block) (sc : Nat) (r : ToolResult),
      r ∈ (processBlocks enable search sc bs).results →
      r.tool_use_id ∈ toolUseIds bs := by
  intro bs
  induction bs with
  | nil => intro sc r h; simp [processBlocks] at h
  | cons b rest ih =>
      intro sc r h
      cases b with
      | text s =>
          simp only [processBlocks] at h
          simpa [toolUseIds] using ih sc r h
      | otherBlock =>
          simp only [processBlocks] at h
          simpa [toolUseIds] using ih sc r h
      | toolUse id name q mr =>
          simp only [processBlocks] at h
          by_cases hc : name = "web_search" ∧ enable = true
          · rw [if_pos hc] at h
            simp only [toolUseIds, List.mem_cons]
            by_cases h6 : max_searches < sc + 1
            · rw [if_pos h6] at h
              rcases List.mem_cons.mp h with h | h
              · left; rw [h]
              · right; exact ih (sc + 1) r h
            · rw [if_neg h6] at h
              rcases List.mem_cons.mp h with h | h
              · left; rw [h]
              · right; exact ih (sc + 1) r h
          · rw [if_neg hc] at h
            simp only [toolUseIds, List.mem_cons]
            right; exact ih sc r h

theorem processBlocks_count_one (enable : Bool)
    (search : String → Nat → List SearchResult) :
    ∀ (bs : List Block) (sc : Nat), (toolUseIds bs).Nodup →
      ∀ r ∈ (processBlocks enable search sc bs).results,
        (toolUseIds bs).count r.tool_use_id = 1 := by
  intro bs
  induction bs with
  | nil => intro sc _ r h; simp [processBlocks] at h
  | cons b rest ih =>
      intro sc hnd r h
      cases b with
      | text s =>
          simp only [processBlocks] at h
          simp only [toolUseIds] at hnd ⊢
          exact ih sc hnd r h
      | otherBlock =>
          simp only [processBlocks] at h
          simp only [toolUseIds] at hnd ⊢
          exact ih sc hnd r h
      | toolUse id name q mr =>
          simp only [processBlocks] at h
          simp only [toolUseIds] at hnd ⊢
          have hnotmem : id ∉ toolUseIds rest := (List.nodup_cons.mp hnd).1
          have hnd' : (toolUseIds rest).Nodup := (List.nodup_cons.mp hnd).2
          by_cases hc : name = "web_search" ∧ enable = true
          · rw [if_pos hc] at h
            have key : r.tool_use_id = id ∨
                (r.tool_use_id ∈ toolUseIds rest ∧
                 (toolUseIds rest).count r.tool_use_id = 1) := by
              by_cases h6 : max_searches < sc + 1
              · rw [if_pos h6] at h
                rcases List.mem_cons.mp h with h | h
                · left; rw [h]
                · exact Or.inr ⟨processBlocks_results_mem enable search rest (sc + 1) r h,
                    ih (sc + 1) hnd' r h⟩
              · rw [if_neg h6] at h
                rcases List.mem_cons.mp h with h | h
                · left; rw [h]
                · exact Or.inr ⟨processBlocks_results_mem enable search rest (sc + 1) r h,
                    ih (sc + 1) hnd' r h⟩
            rcases key with hk | ⟨hmem, hcount⟩
            · rw [hk, List.count_cons_self, List.count_eq_zero.mpr hnotmem]
            · have hner : r.tool_use_id ≠ id := fun e => hnotmem (e ▸ hmem)
              rw [List.count_cons_of_ne hner, hcount]
          · rw [if_neg hc] at h
            have hmem := processBlocks_results_mem enable search rest sc r h
            have hner : r.tool_use_id ≠ id := fun e => hnotmem (e ▸ hmem)
            rw [List.count_cons_of_ne hner, ih sc hnd' r h]

theorem resultsMatch_assistant (bs : List Block) (rs : List ToolResult)
    (h : ∀ r ∈ rs, (toolUseIds bs).count r.tool_use_id = 1) :
    resultsMatch ⟨"assistant", Content.blocks bs⟩ rs = true := by
  simp only [resultsMatch, Bool.and_eq_true, List.all_eq_true, beq_iff_eq]
  exact ⟨trivial, fun r hr => h r hr⟩

theorem checkTranscript_append (m : Message) (t ys : List Message)
    (h : checkTranscript (m :: t) = true)
    (hys : ∀ prev, checkFrom prev ys = true) :
    checkTranscript ((m :: t) ++ ys) = true := by
  have hsplit := checkFrom_append ys t m
  simp only [List.cons_append, checkTranscript, Bool.and_eq_true] at h ⊢
  exact ⟨h.1, by rw [hsplit]; simp [h.2, hys]⟩

theorem good_append (msgs ys : List Message)
    (hne : msgs ≠ []) (h : checkTranscript msgs = true)
    (hys : ∀ prev, checkFrom prev ys = true) :
    (msgs ++ ys) ≠ [] ∧ checkTranscript (msgs ++ ys) = true := by
  cases msgs with
  | nil => exact absurd rfl hne
  | cons m t => exact ⟨by simp, checkTranscript_append m t ys h hys⟩

theorem stepDriver_transcript (enable : Bool) (provider : Nat → Response)
    (search : String → Nat → List SearchResult) (st : DriverState)
    (hids : (toolUseIds (provider st.provider_calls).content).Nodup)
    (hne : st.messages ≠ []) (h : checkTranscript st.messages = true) :
    (stepDriver enable provider search st).1.messages ≠ [] ∧
    checkTranscript (stepDriver enable provider search st).1.messages = true := by
  unfold stepDriver
  dsimp only
  by_cases he : (provider st.provider_calls).stop_reason = "end_turn"
  · rw [if_pos he]
    exact ⟨hne, h⟩
  · rw [if_neg he]
    by_cases ht : (provider st.provider_calls).stop_reason = "tool_use"
    · rw [if_pos ht]
      try dsimp only
      by_cases hr : (processBlocks enable search st.search_count
          (provider st.provider_calls).content).results.isEmpty
      · rw [if_pos hr]
        try dsimp only
        exact good_append st.messages _ hne h (fun prev => by simp [checkFrom])
      · rw [if_neg hr]
        try dsimp only
        have hm := resultsMatch_assistant (provider st.provider_calls).content
          (processBlocks enable search st.search_count
            (provider st.provider_calls).content).results
          (processBlocks_count_one enable search
            (provider st.provider_calls).content st.search_count hids)
        by_cases hs : max_searches ≤ (processBlocks enable search st.search_count
            (provider st.provider_calls).content).search_count
        · rw [if_pos hs]
          try dsimp only
          simp only [List.append_assoc, List.singleton_append]
          exact good_append st.messages _ hne h
            (fun prev => by simp [checkFrom, hm])
        · rw [if_neg hs]
          try dsimp only
          simp only [List.append_assoc, List.singleton_append]
          exact good_append st.messages _ hne h
            (fun prev => by simp [checkFrom, hm])
    · rw [if_neg ht]
      exact ⟨hne, h⟩

theorem runDriver_transcript (enable : Bool) (provider : Nat → Response)
    (search : String → Nat → List SearchResult)
    (hids : ∀ n, (toolUseIds (provider n).content).Nodup) :
    ∀ (n : Nat) (st : DriverState),
      st.messages ≠ [] → checkTranscript st.messages = true →
      (runDriver enable provider search n st).messages ≠ [] ∧
      checkTranscript (runDriver enable provider search n st).messages = true := by
  intro n
  induction n with
  | zero => intro st hne h; simpa [runDriver] using ⟨hne, h⟩
  | succ k ih =>
      intro st hne h
      unfold runDriver
      try dsimp only
      have hstep := stepDriver_transcript enable provider search st
        (hids st.provider_calls) hne h
      split
      · exact ih _ hstep.1 hstep.2
      · exact hstep

theorem stepDriver_end (enable : Bool) (provider : Nat → Response)
    (search : String → Nat → List SearchResult) (st : DriverState)
    (h : (provider st.provider_calls).stop_reason = "end_turn") :
    stepDriver enable provider search st =
      ({ st with provider_calls := st.provider_calls + 1,
                 last_message := some (provider st.provider_calls),
                 response_text := firstText (provider st.provider_calls).content }, false) := by
  unfold stepDriver
  dsimp only
  rw [if_pos h]

theorem runDriver_stop (enable : Bool) (provider : Nat → Response)
    (search : String → Nat → List SearchResult) (n : Nat) (st st' : DriverState)
    (h : stepDriver enable provider search st = (st', false)) :
    runDriver enable provider search (n + 1) st = st' := by
  unfold runDriver
  rw [h]
  rfl

theorem runDriver_end_first (enable : Bool) (provider : Nat → Response)
    (search : String → Nat → List SearchResult) (prompt : String)
    (h : (provider 0).stop_reason = "end_turn") :
    runDriver enable provider search max_iterations (initState prompt) =
      { initState prompt with
          provider_calls := 1
          last_message := some (provider 0)
          response_text := firstText (provider 0).content } := by
  have hstep := stepDriver_end enable provider search (initState prompt) h
  exact runDriver_stop enable provider search 7 (initState prompt) _ hstep

theorem retryAux_all_fail (attempts : Nat → Except String String) (g : Nat → String) :
    ∀ (k i : Nat) (last : Option String),
      (∀ j, j ≤ k → attempts (i + j) = Except.error (g (i + j))) →
      retryAux attempts (k + 1) i last = Except.error (some (g (i + k))) := by
  intro k
  induction k with
  | zero =>
      intro i last hfail
      have h0 : attempts i = Except.error (g i) := by simpa using hfail 0 (by omega)
      simp [retryAux, h0]
  | succ k ih =>
      intro i last hfail
      have h0 : attempts i = Except.error (g i) := by simpa using hfail 0 (by omega)
      have hrest : ∀ j, j ≤ k → attempts (i + 1 + j) = Except.error (g (i + 1 + j)) := by
        intro j hj
        have := hfail (j + 1) (by omega)
        have harg : i + (j + 1) = i + 1 + j := by omega
        rwa [harg] at this
      have := ih (i + 1) (some (g i)) hrest
      have harg : i + 1 + k = i + (k + 1) := by omega
      rw [harg] at this
      simp only [retryAux, h0]
      exact this

theorem formatBody_mapIdx :
    ∀ (rs : List SearchResult) (i : Nat),
      formatBody i rs = concatAll (rs.mapIdx (fun j r => specEntry (i + j) r)) := by
  intro rs
  induction rs with
  | nil => intro i; simp [formatBody, concatAll]
  | cons r rest ih =>
      intro i
      rw [formatBody, List.mapIdx_cons, concatAll]
      have hfun : (fun j (x : SearchResult) => specEntry (i + (j + 1)) x) =
          (fun j (x : SearchResult) => specEntry (i + 1 + j) x) := by
        funext j x
        have : i + (j + 1) = i + 1 + j := by omega
        rw [this]
      have hrec : formatBody (i + 1) rest =
          concatAll (rest.mapIdx (fun j x => specEntry (i + (j + 1)) x)) := by
        rw [hfun, ih (i + 1)]
      rw [hrec]
      simp [specEntry, String.append_assoc]

theorem lookup_mem_pairs :
    ∀ (l : List (String × String)) (k v : String),
      l.lookup k = some v → v ∈ l.map Prod.snd := by
  intro l
  induction l with
  | nil => intro k v h; simp [List.lookup] at h
  | cons p rest ih =>
      intro k v h
      obtain ⟨a, b⟩ := p
      rw [List.lookup] at h
      by_cases hk : k == a
      · rw [hk] at h
        simp only at h
        have hbv : b = v := Option.some.inj h
        subst hbv
        simp
      · have hk' : (k == a) = false := by simpa using hk
        rw [hk'] at h
        simp only at h
        simp only [List.map, List.mem_cons]
        exact Or.inr (ih k v h)

theorem language_names_shape :
    ∀ v ∈ language_names.map Prod.snd, NamesEnglishAndNative v := by
  intro v hv
  simp only [language_names, List.map, List.mem_cons, List.not_mem_nil, or_false] at hv
  rcases hv with rfl | rfl | rfl | rfl | rfl | rfl | rfl | rfl | rfl | rfl | rfl | rfl
  · exact ⟨"Chinese", "中文", by decide, by decide, by decide⟩
  · exact ⟨"Spanish", "Español", by decide, by decide, by decide⟩
  · exact ⟨"French", "Français", by decide, by decide, by decide⟩
  · exact ⟨"Japanese", "日本語", by decide, by decide, by decide⟩
  · exact ⟨"German", "Deutsch", by decide, by decide, by decide⟩
  · exact ⟨"Korean", "한국어", by decide, by decide, by decide⟩
  · exact ⟨"Portuguese", "Português", by decide, by decide, by decide⟩
  · exact ⟨"Russian", "Русский", by decide, by decide, by decide⟩
  · exact ⟨"Arabic", "العربية", by decide, by decide, by decide⟩
  · exact ⟨"Hindi", "हिन्दी", by decide, by decide, by decide⟩
  · exact ⟨"Italian", "Italiano", by decide, by decide, by decide⟩
  · exact ⟨"Dutch", "Nederlands", by decide, by decide, by decide⟩

/-! ### Claim theorems -/

/-- C1: For every sequence of provider responses, one `generate_news_digest`
run dispatches at most `max_searches = 6` actual invocations of
`search_tool.search_news`, and a `web_search` request processed once the
counter already reached the budget receives the synthesized
budget-exhausted `tool_result` instead of an execution. -/
theorem claim_tool_dispatch_budget (provider : Nat → Response)
    (search : String → Nat → List SearchResult)
    (topics : List String) (template language : String) :
    (runDriver true provider search max_iterations
        (initState (buildPrompt true (applyTemplate template topics) language))).executed_searches
      ≤ max_searches ∧
    (∀ (id : String) (q : Option String) (mr : Option Nat) (bs : List Block) (sc : Nat),
      max_searches ≤ sc →
      (processBlocks true search sc (Block.toolUse id "web_search" q mr :: bs)).results =
        ⟨id, budget_message⟩ :: (processBlocks true search (sc + 1) bs).results ∧
      (processBlocks true search sc (Block.toolUse id "web_search" q mr :: bs)).executed = 0) := by
  constructor
  · have h := runDriver_executed true provider search max_iterations
      (initState (buildPrompt true (applyTemplate template topics) language))
      (by simp [initState])
    rw [h]
    exact Nat.min_le_right _ _
  · intro id q mr bs sc hsc
    exact ⟨processBlocks_budget_result search id q mr bs sc hsc,
           processBlocks_executed_zero true search _ sc hsc⟩

/-- C2: one `generate_news_digest` run makes at most `max_iterations = 8`
provider calls, for every sequence of provider responses. -/
theorem claim_provider_call_budget (enable : Bool) (provider : Nat → Response)
    (search : String → Nat → List SearchResult)
    (topics : List String) (template language : String) :
    (runDriver enable provider search max_iterations
        (initState (buildPrompt enable (applyTemplate template topics) language))).provider_calls
      ≤ max_iterations := by
  have h := runDriver_provider_calls enable provider search max_iterations
    (initState (buildPrompt enable (applyTemplate template topics) language))
  simpa [initState] using h

/-- C3: when the tool-call counter reaches `max_searches` during an
iteration, the iteration appends the assistant turn, the tool-results turn,
and then — as the final user turn the model will see next — the fixed
steering instruction (a plain-text turn, not a tool result); and no request
processed with the counter already at or past the budget is ever dispatched
to the executor. -/
theorem claim_budget_steering (enable : Bool) (provider : Nat → Response)
    (search : String → Nat → List SearchResult) (st : DriverState)
    (h1 : (provider st.provider_calls).stop_reason = "tool_use")
    (h2 : (processBlocks enable search st.search_count
            (provider st.provider_calls).content).results ≠ [])
    (h3 : max_searches ≤ (processBlocks enable search st.search_count
            (provider st.provider_calls).content).search_count) :
    ((stepDriver enable provider search st).1.messages =
      st.messages ++
        [⟨"assistant", Content.blocks (provider st.provider_calls).content⟩,
         ⟨"user", Content.results (processBlocks enable search st.search_count
            (provider st.provider_calls).content).results⟩,
         ⟨"user", Content.str steering_message⟩] ∧
     (stepDriver enable provider search st).2 = true) ∧
    (∀ (sc : Nat) (bs : List Block), max_searches ≤ sc →
      (processBlocks enable search sc bs).executed = 0) := by
  exact ⟨stepDriver_steering enable provider search st h1 h2 h3,
         fun sc bs hsc => processBlocks_executed_zero enable search bs sc hsc⟩

/-- C4: if the first provider response has stop reason `end_turn` and holds
a text block, the loop ends after exactly one provider call and the first
text block is returned verbatim. -/
theorem claim_end_turn_first (enable : Bool) (provider : Nat → Response)
    (search : String → Nat → List SearchResult)
    (topics : List String) (template language : String) (t : String)
    (h1 : (provider 0).stop_reason = "end_turn")
    (h2 : firstText (provider 0).content = some t) :
    generate_news_digest enable provider search topics template language = Except.ok t ∧
    (runDriver enable provider search max_iterations
        (initState (buildPrompt enable (applyTemplate template topics) language))).provider_calls
      = 1 := by
  have hrun := runDriver_end_first enable provider search
    (buildPrompt enable (applyTemplate template topics) language) h1
  constructor
  · unfold generate_news_digest
    dsimp only
    rw [hrun]
    dsimp only
    rw [h2]
  · rw [hrun]

/-- C5: if the loop finishes without capturing final text, the result is
extracted from the most recent provider response; when that response has a
text block the block is returned, and otherwise the call fails with the
`"No text response received from Claude"` exception. -/
theorem claim_no_final_response (enable : Bool) (provider : Nat → Response)
    (search : String → Nat → List SearchResult)
    (topics : List String) (template language : String) (m : Response) (t : String)
    (h0 : (runDriver enable provider search max_iterations
        (initState (buildPrompt enable (applyTemplate template topics) language))).response_text
        = none)
    (h1 : (runDriver enable provider search max_iterations
        (initState (buildPrompt enable (applyTemplate template topics) language))).last_message
        = some m) :
    (firstText m.content = some t →
      generate_news_digest enable provider search topics template language = Except.ok t) ∧
    (firstText m.content = none →
      generate_news_digest enable provider search topics template language =
        Except.error "No text response received from Claude") := by
  constructor
  · intro h2
    unfold generate_news_digest
    dsimp only
    rw [h0]
    dsimp only
    rw [h1]
    dsimp only
    rw [h2]
  · intro h2
    unfold generate_news_digest
    dsimp only
    rw [h0]
    dsimp only
    rw [h1]
    dsimp only
    rw [h2]

/-- C6: `generate_with_retry` treats every exception as retryable: with
`max_retries = 3`, a generation failing twice then succeeding yields the
success value, and a generation failing on all attempts re-raises the last
captured failure. -/
theorem claim_retry_behavior (attempts : Nat → Except String String)
    (e0 e1 v : String) (g : Nat → String) (mr : Int) :
    (attempts 0 = Except.error e0 → attempts 1 = Except.error e1 →
      attempts 2 = Except.ok v →
      generate_with_retry attempts 3 = Except.ok v) ∧
    (0 < mr → (∀ j, j < mr.toNat → attempts j = Except.error (g j)) →
      generate_with_retry attempts mr = Except.error (some (g (mr.toNat - 1)))) := by
  constructor
  · intro h0 h1 h2
    unfold generate_with_retry
    have h3 : (3 : Int).toNat = 3 := rfl
    rw [h3]
    simp [retryAux, h0, h1, h2]
  · intro hpos hfail
    unfold generate_with_retry
    obtain ⟨k, hk⟩ : ∃ k, mr.toNat = k + 1 := ⟨mr.toNat - 1, by omega⟩
    rw [hk]
    have hall := retryAux_all_fail attempts g k 0 none
      (fun j hj => by simpa using hfail j (by omega))
    simpa [hk] using hall

/-- C7: every `tool_result` block appended during a run answers exactly one
`tool_use` block of the immediately preceding assistant turn, assuming the
provider gives each `tool_use` block of a response a unique identifier; no
orphaned tool result is ever appended. -/
theorem claim_transcript_invariant (enable : Bool) (provider : Nat → Response)
    (search : String → Nat → List SearchResult)
    (topics : List String) (template language : String)
    (hids : ∀ n, (toolUseIds (provider n).content).Nodup) :
    checkTranscript (runDriver enable provider search max_iterations
      (initState (buildPrompt enable (applyTemplate template topics) language))).messages
      = true := by
  exact (runDriver_transcript enable provider search hids max_iterations
    (initState (buildPrompt enable (applyTemplate template topics) language))
    (by simp [initState]) (by simp [checkTranscript, checkFrom, initState])).2

/-- C8: for a non-empty result list, the rendered tool-result text is the
header followed by one entry per result in input order, each made of its
1-based ordinal with the title, its snippet line and, exactly when the URL
is non-empty, a URL line. -/
theorem claim_search_result_rendering (query : String) (rs : List SearchResult)
    (h : rs ≠ []) :
    formatSearchResults query rs =
      "Search results for \x27" ++ query ++ "\x27:\n\n" ++
        concatAll (rs.mapIdx (fun j r => specEntry (j + 1) r)) := by
  unfold formatSearchResults
  rw [if_neg (by simpa [List.isEmpty_iff] using h : ¬ rs.isEmpty = true)]
  rw [formatBody_mapIdx rs 1]
  have hfun : (fun j (r : SearchResult) => specEntry (1 + j) r) =
      (fun j r => specEntry (j + 1) r) := by
    funext j r
    rw [Nat.add_comm]
  rw [hfun]

/-- C9 counterexample: `"xx"` is a non-default target language (non-empty,
not `en`), yet the appended directive reads `... respond entirely in XX.`,
whose language name `XX` does not have the `English (NativeScript)` shape —
it names neither an English name nor a native script. -/
theorem claim_language_directive_counterexample :
    ("xx" ≠ "" ∧ lowerStr "xx" ≠ "en") ∧
    buildPrompt false "" "xx" = "\n\nIMPORTANT: Please respond entirely in XX." ∧
    ¬ NamesEnglishAndNative (languageName "xx") := by
  refine ⟨by decide, by decide, ?_⟩
  intro hN
  obtain ⟨e, n, _, _, heq⟩ := hN
  have hXX : languageName "xx" = "XX" := by decide
  rw [hXX] at heq
  have hlen := congrArg String.length heq
  rw [String.length_append, String.length_append, String.length_append] at hlen
  have l1 : ("XX" : String).length = 2 := rfl
  have l2 : (" (" : String).length = 2 := rfl
  have l3 : (")" : String).length = 1 := rfl
  omega

/-- C9 amended: for a non-empty, non-`en` target language the prompt ends
with the appended directive naming `languageName language`; that name has
the `English (NativeScript)` shape exactly for languages present in the
`language_names` dictionary, and is the uppercased code otherwise. -/
theorem claim_language_directive_amended (enable : Bool) (base language : String)
    (h1 : language ≠ "") (h2 : lowerStr language ≠ "en") :
    buildPrompt enable base language =
      (if enable then base ++ web_search_instruction else base) ++
        "\n\nIMPORTANT: Please respond entirely in " ++ languageName language ++ "." ∧
    (∀ v, language_names.lookup (lowerStr language) = some v →
      NamesEnglishAndNative (languageName language)) := by
  constructor
  · unfold buildPrompt
    rw [if_pos ⟨h1, h2⟩]
  · intro v hv
    unfold languageName
    rw [hv]
    exact language_names_shape v (lookup_mem_pairs language_names (lowerStr language) v hv)

/-- C10: calling `generate_with_retry` with `max_retries ≤ 0` makes no
generation attempt and fails by re-raising the `None` placeholder for the
last exception (a `TypeError` in Python, modelled as `Except.error none`),
never a failure coming from the generation itself. -/
theorem claim_retry_nonpositive (attempts : Nat → Except String String) (mr : Int)
    (h : mr ≤ 0) :
    generate_with_retry attempts mr = Except.error none := by
  unfold generate_with_retry
  have h0 : mr.toNat = 0 := by omega
  rw [h0]
  rfl

/-! ### Witnesses -/

/-- Witness for C1 at a concrete provider, search oracle and request. -/
theorem claim_tool_dispatch_budget_witness :
    (runDriver true provEnd searchNone max_iterations
        (initState (buildPrompt true (applyTemplate "{topics}" ["AI"]) "en"))).executed_searches
      ≤ max_searches ∧
    ((processBlocks true searchNone 6
        [Block.toolUse "id9" "web_search" none none]).results =
      ⟨"id9", budget_message⟩ :: (processBlocks true searchNone 7 []).results ∧
     (processBlocks true searchNone 6
        [Block.toolUse "id9" "web_search" none none]).executed = 0) :=
  ⟨(claim_tool_dispatch_budget provEnd searchNone ["AI"] "{topics}" "en").1,
   (claim_tool_dispatch_budget provEnd searchNone ["AI"] "{topics}" "en").2
     "id9" none none [] 6 (by decide)⟩

/-- Witness for C3 at a concrete state whose budget is already reached. -/
theorem claim_budget_steering_witness :
    ((stepDriver true provTool searchNone stWitness).1.messages =
      stWitness.messages ++
        [⟨"assistant", Content.blocks (provTool stWitness.provider_calls).content⟩,
         ⟨"user", Content.results (processBlocks true searchNone stWitness.search_count
            (provTool stWitness.provider_calls).content).results⟩,
         ⟨"user", Content.str steering_message⟩] ∧
     (stepDriver true provTool searchNone stWitness).2 = true) ∧
    (processBlocks true searchNone 6 []).executed = 0 :=
  ⟨(claim_budget_steering true provTool searchNone stWitness
      (by decide) (by decide) (by decide)).1,
   (claim_budget_steering true provTool searchNone stWitness
      (by decide) (by decide) (by decide)).2 6 [] (by decide)⟩

/-- Witness for C4: a first-call `end_turn` reply returns its text. -/
theorem claim_end_turn_first_witness :
    generate_news_digest false provEnd searchNone ["AI"] "{topics}" "en" =
      Except.ok "digest" ∧
    (runDriver false provEnd searchNone max_iterations
        (initState (buildPrompt false (applyTemplate "{topics}" ["AI"]) "en"))).provider_calls
      = 1 :=
  claim_end_turn_first false provEnd searchNone ["AI"] "{topics}" "en" "digest" rfl rfl

/-- Witness for C5: salvage from the last reply, and the failure case. -/
theorem claim_no_final_response_witness :
    generate_news_digest false provOther searchNone ["AI"] "{topics}" "en" =
      Except.ok "fallback" ∧
    generate_news_digest false provOtherNoText searchNone ["AI"] "{topics}" "en" =
      Except.error "No text response received from Claude" :=
  ⟨(claim_no_final_response false provOther searchNone ["AI"] "{topics}" "en"
      respOther "fallback" rfl rfl).1 rfl,
   (claim_no_final_response false provOtherNoText searchNone ["AI"] "{topics}" "en"
      respOtherNoText "x" rfl rfl).2 rfl⟩

/-- Witness for C6: fail-twice-then-succeed, and fail-three-times. -/
theorem claim_retry_behavior_witness :
    generate_with_retry attemptsFlaky 3 = Except.ok "ok" ∧
    generate_with_retry attemptsFail 3 = Except.error (some ("e" ++ toString 2)) :=
  ⟨(claim_retry_behavior attemptsFlaky "boom" "boom" "ok"
      (fun n => "e" ++ toString n) 3).1 rfl rfl rfl,
   (claim_retry_behavior attemptsFail "" "" ""
      (fun n => "e" ++ toString n) 3).2 (by decide) (fun j _ => rfl)⟩

/-- Witness for C7: a run with one tool call then a final answer. -/
theorem claim_transcript_invariant_witness :
    checkTranscript (runDriver true provToolThenEnd searchNone max_iterations
      (initState (buildPrompt true (applyTemplate "{topics}" ["AI"]) "en"))).messages
      = true :=
  claim_transcript_invariant true provToolThenEnd searchNone ["AI"] "{topics}" "en"
    (fun n => by
      cases n with
      | zero => decide
      | succ k =>
          show (toolUseIds respEnd.content).Nodup
          decide)

/-- Witness for C8 on two concrete results, one with and one without URL. -/
theorem claim_search_result_rendering_witness :
    formatSearchResults "q" [sr1, sr2] =
      "Search results for \x27" ++ "q" ++ "\x27:\n\n" ++
        concatAll ([sr1, sr2].mapIdx (fun j r => specEntry (j + 1) r)) :=
  claim_search_result_rendering "q" [sr1, sr2] (by decide)

/-- Witness for the amended C9 at a known language code. -/
theorem claim_language_directive_amended_witness :
    (buildPrompt true "base" "zh" =
      (if true then "base" ++ web_search_instruction else "base") ++
        "\n\nIMPORTANT: Please respond entirely in " ++ languageName "zh" ++ ".") ∧
    NamesEnglishAndNative (languageName "zh") :=
  ⟨(claim_language_directive_amended true "base" "zh" (by decide) (by decide)).1,
   (claim_language_directive_amended true "base" "zh" (by decide) (by decide)).2
     "Chinese (中文)" (by decide)⟩

/-- Witness for C10 at `max_retries = 0`. -/
theorem claim_retry_nonpositive_witness :
    generate_with_retry attemptsFail 0 = Except.error none :=
  claim_retry_nonpositive attemptsFail 0 (by decide)
